import Mathlib

/-!
Shallow embedding of `src/InfiniteSlider.tsx` (react-seamless-slider).

Conventions of the embedding:
* JavaScript numbers are modelled by `JsNum`: either NaN, +∞, −∞, or a
  finite rational.  Signed zero is identified with zero (no claim here
  distinguishes `0` from `-0`).  The arithmetic, comparison and
  truthiness operations below follow the ECMAScript semantics for the
  cases that can arise in the component.
* Optional TS string fields (`string | undefined`) are `Option String`;
  JavaScript truthiness of such a field is `truthyOpt` (undefined and
  the empty string are falsy).
* DOM geometry reaching the measurement code is a `Snapshot`: the list
  of the track's children with their `offsetLeft`/`offsetWidth`, plus
  the container's computed `gap` style string.
* React lifecycle: a function component first renders (committing its
  output) and only afterwards runs its effects in order; `mountTrace`
  records this as a list of events.
-/

/-- Model of a JavaScript number: NaN, +∞, −∞ or a finite rational. -/
inductive JsNum where
  | nan : JsNum
  | posInf : JsNum
  | negInf : JsNum
  | fin : ℚ → JsNum
deriving DecidableEq

instance : Inhabited JsNum := ⟨JsNum.nan⟩

/-- `Number.isFinite`. -/
def JsNum.isFinite : JsNum → Bool
  | .fin _ => true
  | _ => false

/-- JS `ToBoolean` on a number: `0` and `NaN` are falsy. -/
def JsNum.truthy : JsNum → Bool
  | .nan => false
  | .fin q => q ≠ 0
  | _ => true

/-- JS strict equality `===` on numbers (`NaN === x` is false). -/
def JsNum.strictEq : JsNum → JsNum → Bool
  | .nan, _ => false
  | _, .nan => false
  | .posInf, .posInf => true
  | .posInf, _ => false
  | .negInf, .negInf => true
  | .negInf, _ => false
  | .fin a, .fin b => a = b
  | .fin _, _ => false

/-- JS `<` on numbers (any comparison involving NaN is false). -/
def JsNum.lt : JsNum → JsNum → Bool
  | .nan, _ => false
  | _, .nan => false
  | .negInf, .negInf => false
  | .negInf, _ => true
  | _, .negInf => false
  | .posInf, _ => false
  | .fin _, .posInf => true
  | .fin a, .fin b => a < b

/-- JS `>` on numbers: `a > b` holds exactly when `b < a`. -/
def JsNum.gt (a b : JsNum) : Bool := JsNum.lt b a

/-- JS addition. -/
def JsNum.add : JsNum → JsNum → JsNum
  | .nan, _ => .nan
  | _, .nan => .nan
  | .posInf, .negInf => .nan
  | .negInf, .posInf => .nan
  | .posInf, _ => .posInf
  | _, .posInf => .posInf
  | .negInf, _ => .negInf
  | _, .negInf => .negInf
  | .fin a, .fin b => .fin (a + b)

/-- JS subtraction. -/
def JsNum.sub : JsNum → JsNum → JsNum
  | .nan, _ => .nan
  | _, .nan => .nan
  | .posInf, .posInf => .nan
  | .negInf, .negInf => .nan
  | .posInf, _ => .posInf
  | .negInf, _ => .negInf
  | .fin _, .posInf => .negInf
  | .fin _, .negInf => .posInf
  | .fin a, .fin b => .fin (a - b)

/-- JS multiplication (`±∞ * 0` is NaN). -/
def JsNum.mul : JsNum → JsNum → JsNum
  | .nan, _ => .nan
  | _, .nan => .nan
  | .posInf, .posInf => .posInf
  | .posInf, .negInf => .negInf
  | .negInf, .posInf => .negInf
  | .negInf, .negInf => .posInf
  | .posInf, .fin b => if 0 < b then .posInf else if b < 0 then .negInf else .nan
  | .negInf, .fin b => if 0 < b then .negInf else if b < 0 then .posInf else .nan
  | .fin a, .posInf => if 0 < a then .posInf else if a < 0 then .negInf else .nan
  | .fin a, .negInf => if 0 < a then .negInf else if a < 0 then .posInf else .nan
  | .fin a, .fin b => .fin (a * b)

/-- JS division (`x / 0` is ±∞ for x ≠ 0, `0 / 0` is NaN, `∞ / ∞` is NaN;
signed zero is identified with zero). -/
def JsNum.div : JsNum → JsNum → JsNum
  | .nan, _ => .nan
  | _, .nan => .nan
  | .posInf, .posInf => .nan
  | .posInf, .negInf => .nan
  | .negInf, .posInf => .nan
  | .negInf, .negInf => .nan
  | .posInf, .fin b => if b < 0 then .negInf else .posInf
  | .negInf, .fin b => if b < 0 then .posInf else .negInf
  | .fin _, .posInf => .fin 0
  | .fin _, .negInf => .fin 0
  | .fin a, .fin b =>
    if b = 0 then (if 0 < a then .posInf else if a < 0 then .negInf else .nan)
    else .fin (a / b)

/-- JS `Math.round`: for a finite argument, the floor of `x + 1/2`
(ties round toward +∞); NaN and the infinities are returned unchanged. -/
def JsNum.round : JsNum → JsNum
  | .fin q => .fin ((⌊q + 1/2⌋ : ℤ) : ℚ)
  | x => x

/-- JS truthiness of a `string | undefined` value: `undefined` and the
empty string are falsy. -/
def truthyOpt : Option String → Bool
  | none => false
  | some s => s ≠ ""

/-- `SliderItem` (src/InfiniteSlider.tsx, lines 10–23): all fields optional. -/
structure SliderItem where
  id : Option String := none
  logo : Option String := none
  text : Option String := none
  alt : Option String := none
  invertDark : Option Bool := none
  className : Option String := none
deriving DecidableEq

instance : Inhabited SliderItem := ⟨{}⟩

/-- The `gap` prop: `number | string` (default `"3rem"`). -/
inductive GapProp where
  | num : JsNum → GapProp
  | str : String → GapProp
deriving DecidableEq

/-- The key of a rendered item (line 319):
`item.id || (i + "-" + copyIndex)` — the truthy `id` if present,
otherwise the composite of the position in one copy and the copy index. -/
def itemKey (item : SliderItem) (i copyIndex : ℕ) : String :=
  if truthyOpt item.id then item.id.getD ""
  else toString i ++ "-" ++ toString copyIndex

/-- JS `a || b || ""` for two optional strings (used for the img `alt`). -/
def jsOrStr (a b : Option String) : String :=
  if truthyOpt a then a.getD "" else if truthyOpt b then b.getD "" else ""

/-- One rendered entry of the track (the `div` produced at lines 323–354
for a given `copyIndex` and position `i`). -/
structure RenderedItem where
  key : String
  className : String
  showsImg : Bool
  imgSrc : Option String
  imgAlt : String
  showsPlaceholder : Bool
  showsText : Bool
  textContent : Option String
  sourceItem : SliderItem
  indexInCopy : ℕ
  copyIndex : ℕ
deriving DecidableEq

/-- Rendering of one item (lines 317–355 body). -/
def renderItem (itemClassName : String) (shouldLoad : Bool)
    (copyIndex i : ℕ) (item : SliderItem) : RenderedItem :=
  let hasLogo := truthyOpt item.logo
  let hasText := truthyOpt item.text
  { key := itemKey item i copyIndex
    className := "infinite-slider-item " ++ itemClassName ++ " " ++
      (if truthyOpt item.className then item.className.getD "" else "")
    showsImg := shouldLoad && hasLogo
    imgSrc := if shouldLoad && hasLogo then item.logo else none
    imgAlt := jsOrStr item.alt item.text
    showsPlaceholder := !shouldLoad && hasLogo
    showsText := hasText
    textContent := if hasText then item.text else none
    sourceItem := item
    indexInCopy := i
    copyIndex := copyIndex }

/-- The doubled render buffer (lines 317–356):
`Array.from(\x7blength: 2\x7d).map((_, copyIndex) => items.map(...))`. -/
def renderBuffer (items : List SliderItem) (itemClassName : String)
    (shouldLoad : Bool) : List RenderedItem :=
  ((List.range 2).map (fun copyIndex =>
    items.enum.map (fun p => renderItem itemClassName shouldLoad copyIndex p.1 p.2))).flatten

/-- Everything about a rendered entry except its key and copy index:
the visual/styling content the two halves are claimed to share. -/
def RenderedItem.visual (r : RenderedItem) :
    String × Bool × Option String × String × Bool × Bool × Option String × SliderItem × ℕ :=
  (r.className, r.showsImg, r.imgSrc, r.imgAlt, r.showsPlaceholder, r.showsText,
    r.textContent, r.sourceItem, r.indexInCopy)

/-- Observable events of a mount of the component. -/
inductive Event where
  | render : List RenderedItem → Event
  | consoleError : ℕ → Event
  | throwError : String → Event
deriving DecidableEq

instance : Inhabited Event := ⟨Event.consoleError 0⟩

def Event.isRender : Event → Bool
  | .render _ => true
  | _ => false

def Event.isThrow : Event → Bool
  | .throwError _ => true
  | _ => false

/-- The message of the configuration error (lines 104–106). -/
def validationMsg : String :=
  "InfiniteSlider: All items must have either a logo or text property."

/-- `items.filter((item) => !item.logo && !item.text)` (line 98). -/
def invalidItems (items : List SliderItem) : List SliderItem :=
  items.filter (fun item => !truthyOpt item.logo && !truthyOpt item.text)

/-- The validation effect (lines 97–108): logs and throws when some item
has neither a (truthy) logo nor text, otherwise does nothing. -/
def validateEffect (items : List SliderItem) : List Event :=
  if (invalidItems items).length > 0 then
    [.consoleError (invalidItems items).length, .throwError validationMsg]
  else []

/-- React mount semantics: the component function runs first, committing
its rendered output, and only then do its effects run, in order.  The
validation `useEffect` is the first effect of the component. -/
def mountTrace (items : List SliderItem) (itemClassName : String)
    (shouldLoad : Bool) : List Event :=
  .render (renderBuffer items itemClassName shouldLoad) :: validateEffect items

/-- Formalisation of "the sequence is rejected with a thrown fault, and
the rejection occurs before any rendering side effect": the trace throws,
and the first throw precedes the first render event. -/
def rejectsBeforeRender (tr : List Event) : Prop :=
  tr.any Event.isThrow = true ∧
    tr.findIdx Event.isThrow < tr.findIdx Event.isRender

instance (tr : List Event) : Decidable (rejectsBeforeRender tr) := by
  unfold rejectsBeforeRender; infer_instance

/-- Outcome of the lazy-load effect (lines 111–140) for one mount. -/
structure GateResult where
  isVisible : Bool
  shouldLoad : Bool
  observerCreated : Bool
deriving DecidableEq

/-- The lazy-load effect (lines 111–140).  `windowPresent` models
`typeof window !== "undefined"`; `intersects` tells whether the
intersection observer (client side only) ever reports intersection.
With lazy loading disabled both flags are set immediately; otherwise, on
a host with no `window`, the effect returns early, leaving both `useState(false)`
flags false; on a client an observer is created and the flags are set
when it fires. -/
def lazyLoadEffect (lazyLoad windowPresent intersects : Bool) : GateResult :=
  if !lazyLoad then ⟨true, true, false⟩
  else if !windowPresent then ⟨false, false, false⟩
  else if intersects then ⟨true, true, true⟩
  else ⟨false, false, true⟩

/-- Numeric value of a list of decimal digit characters. -/
def digitsVal (l : List Char) : ℕ :=
  l.foldl (fun a c => a * 10 + (c.toNat - 48)) 0

/-- JS `parseFloat` on the strings that occur as computed CSS lengths:
leading whitespace, an optional sign, then the longest prefix of the
form `digits`, `digits.digits`, `.digits` or `digits.`; NaN when no
digit is found.  (Exponent and `Infinity` literal forms never occur in
computed `gap` strings and are not modelled.) -/
def parseFloatJs (s : String) : JsNum :=
  let cs := s.data.dropWhile (fun c => c = ' ' || c = '\t' || c = '\n' || c = '\r')
  let sign : ℚ := match cs with
    | '-' :: _ => -1
    | _ => 1
  let cs₁ := match cs with
    | '-' :: r => r
    | '+' :: r => r
    | _ => cs
  let intPart := cs₁.takeWhile Char.isDigit
  let rest := cs₁.dropWhile Char.isDigit
  let fracPart := match rest with
    | '.' :: r => r.takeWhile Char.isDigit
    | _ => []
  if intPart = [] && fracPart = [] then .nan
  else .fin (sign * ((digitsVal intPart : ℚ) + (digitsVal fracPart : ℚ) / 10 ^ fracPart.length))

/-- De-duplication keeping the first occurrence, as a JS `Set` built from
a list does. -/
def dedupFirst : List String → List String
  | [] => []
  | x :: xs => x :: (dedupFirst xs).filter (fun y => y ≠ x)

/-- The distinct image URLs of the sequence (lines 149–151):
`Array.from(new Set(items.map((item) => item.logo).filter(Boolean)))`. -/
def imageUrls (items : List SliderItem) : List String :=
  dedupFirst ((items.filterMap (fun item => item.logo)).filter (fun s => s ≠ ""))

/-- A completion event of one preloaded image: its `onload` or `onerror`
handler firing (both are wired to the same `checkAllLoaded`). -/
inductive LoadEvent where
  | success : String → LoadEvent
  | failure : String → LoadEvent
deriving DecidableEq

def LoadEvent.url : LoadEvent → String
  | .success u => u
  | .failure u => u

/-- `checkAllLoaded` (lines 161–166) acting on the state
`(loadedCount, imagesLoaded)`: increments the counter and latches the
flag when the counter reaches the total. -/
def checkAllLoaded (totalImages : ℕ) (st : ℕ × Bool) : ℕ × Bool :=
  (st.1 + 1, st.2 || (st.1 + 1 = totalImages : Bool))

/-- The preload effect (lines 143–175) run over a list of completion
events: the flag starts true exactly when there are no distinct URLs
(lines 153–156), and each completion event — success or failure alike —
feeds `checkAllLoaded`. -/
def preloadRun (items : List SliderItem) (events : List LoadEvent) : ℕ × Bool :=
  let totalImages := (imageUrls items).length
  events.foldl (fun st _e => checkAllLoaded totalImages st) (0, (totalImages = 0 : Bool))

/-- The `imagesLoaded` flag after a list of completion events. -/
def imagesLoadedAfter (items : List SliderItem) (events : List LoadEvent) : Bool :=
  (preloadRun items events).2

/-- Geometry of one child of the track, as the DOM reports it. -/
structure ChildGeom where
  offsetLeft : JsNum
  offsetWidth : JsNum
deriving DecidableEq

instance : Inhabited ChildGeom := ⟨JsNum.nan, JsNum.nan⟩

/-- A geometry snapshot of the attached track at measurement time:
its children and the container's computed `gap` style string. -/
structure Snapshot where
  children : List ChildGeom
  computedGap : String
deriving DecidableEq

/-- The effective gap in pixels (lines 224–230 and 237–243):
`gapValue ? parseFloat(gapValue) : typeof gap === "number" ? gap : 48`. -/
def effectiveGapPx (gapValue : String) (gap : GapProp) : JsNum :=
  if gapValue ≠ "" then parseFloatJs gapValue
  else match gap with
    | .num x => x
    | .str _ => .fin 48

/-- The width produced by the primary tier (lines 207–212: distance
between the first children of the two copies), else the secondary tier
(lines 213–233: first-to-last extent of the first copy plus the
effective gap), else the initial `0` (line 204). -/
def preTierWidth (snap : Snapshot) (itemsPerSet : ℕ) (gap : GapProp) : JsNum :=
  let itemsElements := snap.children
  if itemsElements.length ≥ itemsPerSet * 2 then
    JsNum.sub (itemsElements.getD itemsPerSet default).offsetLeft
      (itemsElements.getD 0 default).offsetLeft
  else if itemsElements.length ≥ itemsPerSet then
    let firstItem := itemsElements.getD 0 default
    let lastItem := itemsElements.getD (itemsPerSet - 1) default
    JsNum.add
      (JsNum.sub (JsNum.add lastItem.offsetLeft lastItem.offsetWidth) firstItem.offsetLeft)
      (effectiveGapPx snap.computedGap gap)
  else .fin 0

/-- The guard of the final fallback (line 236):
`halfTotalWidth === 0 || !halfTotalWidth || halfTotalWidth < 100`. -/
def needsFallbackWidth (w : JsNum) : Bool :=
  w.strictEq (.fin 0) || !w.truthy || w.lt (.fin 100)

/-- The final fallback (lines 236–250): the sum of the rendered widths
of one copy's items plus effective-gap × (itemsPerSet − 1); the
multiplier is JS arithmetic, so `itemsPerSet = 0` contributes `−gap`. -/
def tertiaryWidth (snap : Snapshot) (itemsPerSet : ℕ) (gap : GapProp) : JsNum :=
  let gapPx := effectiveGapPx snap.computedGap gap
  JsNum.add
    ((snap.children.take itemsPerSet).foldl
      (fun acc c => JsNum.add acc c.offsetWidth) (.fin 0))
    (JsNum.mul gapPx (.fin ((itemsPerSet : ℚ) - 1)))

/-- The distance after all fallback tiers (lines 204–250). -/
def finalWidth (snap : Snapshot) (itemsPerSet : ℕ) (gap : GapProp) : JsNum :=
  if needsFallbackWidth (preTierWidth snap itemsPerSet gap) then
    tertiaryWidth snap itemsPerSet gap
  else preTierWidth snap itemsPerSet gap

/-- The published animation parameters: the CSS custom properties
`--total-width` (pixels) and `--scroll-duration` (seconds), set
together at lines 258–262; publishing them is immediately followed by
scheduling the `infinite-slider-ready` class (lines 265–267). -/
structure PublishedParams where
  totalWidth : JsNum
  scrollDuration : JsNum
deriving DecidableEq

/-- The publication step (lines 252–268): only if the computed width is
strictly positive, round it and set both custom properties
(`scrollDuration = halfTotalWidth / baseWidth * duration * speed`);
otherwise publish nothing and start nothing. -/
def publishStep (w baseWidth duration speed : JsNum) : Option PublishedParams :=
  if w.gt (.fin 0) then
    let rounded := w.round
    some ⟨rounded, (((rounded.div baseWidth).mul duration).mul speed)⟩
  else none

/-- `calculateAndSetWidth` (lines 199–269): bail out when the track has
no children, otherwise run the measurement tiers and the publication
step. -/
def calculateAndSetWidth (snap : Snapshot) (itemsPerSet : ℕ) (gap : GapProp)
    (baseWidth duration speed : JsNum) : Option PublishedParams :=
  if snap.children.length = 0 then none
  else publishStep (finalWidth snap itemsPerSet gap) baseWidth duration speed

/-- The retry polling of `setupAnimation` (lines 186–197) against a
stream of child counts (`counts n` = number of children seen by the
n-th poll): poll 0 always happens, and poll `n+1` happens exactly when
poll `n` happened and saw zero children (each retry is scheduled with a
50ms timer, i.e. the loop is non-blocking). -/
def pollHappens (counts : ℕ → ℕ) : ℕ → Bool
  | 0 => true
  | n + 1 => pollHappens counts n && (counts n = 0 : Bool)

theorem string_append_right_ne (s : String) {t u : String} (h : t ≠ u) :
    s ++ t ≠ s ++ u := by
  intro he
  exact h (String.ext
    (by simpa [String.data_append] using congrArg String.data he))

theorem renderBuffer_eq_append (items : List SliderItem) (icn : String) (sl : Bool) :
    renderBuffer items icn sl =
      items.enum.map (fun p => renderItem icn sl 0 p.1 p.2) ++
      items.enum.map (fun p => renderItem icn sl 1 p.1 p.2) := by
  simp [renderBuffer, List.range_succ]

theorem renderBuffer_sourceItems (items : List SliderItem) (icn : String) (sl : Bool) :
    (renderBuffer items icn sl).map RenderedItem.sourceItem = items ++ items := by
  rw [renderBuffer_eq_append]
  simp only [List.map_append, List.map_map]
  have hc : ∀ c : ℕ,
      (RenderedItem.sourceItem ∘ fun p : ℕ × SliderItem => renderItem icn sl c p.1 p.2) =
        Prod.snd := fun _ => rfl
  rw [hc 0, hc 1, List.enum_eq_enumFrom, List.enumFrom_map_snd]

theorem renderBuffer_halves_visual (items : List SliderItem) (icn : String) (sl : Bool) :
    ((renderBuffer items icn sl).take items.length).map RenderedItem.visual =
    ((renderBuffer items icn sl).drop items.length).map RenderedItem.visual := by
  rw [renderBuffer_eq_append, List.take_left' (by simp), List.drop_left' (by simp)]
  simp only [List.map_map]
  rfl

/-- A sequence accepted by the validation (no item lacking both logo and
text) containing an item with an explicit `id`. -/
def idItemSeq : List SliderItem := [{ id := some "a", text := some "t" }]

/-- C1, as stated, is false: for an accepted sequence whose item carries
a (truthy) `id`, the key is `item.id` in both halves, so the copy-0 and
copy-1 instances of that item share one key instead of differing in the
copy index.  Concretely, for `[{id: "a", text: "t"}]` both rendered
copies have key `"a"`. -/
theorem C1_counterexample :
    ¬ (∀ (items : List SliderItem), invalidItems items = [] →
        ∀ i : ℕ, i < items.length →
          itemKey (items.getD i default) i 0 ≠ itemKey (items.getD i default) i 1) := by
  intro h
  exact h idItemSeq (by decide) 0 (by decide) (by decide)

/-- C1 (amended): the rendered buffer is exactly S concatenated with S —
the two halves carry the same items in the same order with identical
styling — and for every item whose `id` is absent or empty the two
copies' keys are the position/copy-index composites, which are distinct
and differ only in the copy index; but an item with a truthy `id` gets
that `id` as the key of both of its copies. -/
theorem C1_buffer_identity_amended :
    (∀ (items : List SliderItem) (icn : String) (sl : Bool),
      (renderBuffer items icn sl).map RenderedItem.sourceItem = items ++ items) ∧
    (∀ (items : List SliderItem) (icn : String) (sl : Bool),
      ((renderBuffer items icn sl).take items.length).map RenderedItem.visual =
      ((renderBuffer items icn sl).drop items.length).map RenderedItem.visual) ∧
    (∀ (item : SliderItem) (i : ℕ), truthyOpt item.id = false →
      itemKey item i 0 = toString i ++ "-" ++ toString 0 ∧
      itemKey item i 1 = toString i ++ "-" ++ toString 1 ∧
      itemKey item i 0 ≠ itemKey item i 1) ∧
    (∀ (item : SliderItem) (i : ℕ), truthyOpt item.id = true →
      itemKey item i 0 = itemKey item i 1) := by
  refine ⟨renderBuffer_sourceItems, renderBuffer_halves_visual, ?_, ?_⟩
  · intro item i h
    refine ⟨by simp [itemKey, h], by simp [itemKey, h], ?_⟩
    simp only [itemKey, h, Bool.false_eq_true, if_false]
    exact string_append_right_ne (toString i ++ "-") (by decide)
  · intro item i h
    simp [itemKey, h]

/-- Witness for C1 (amended) at concrete inputs: a no-id item and an
item with `id := "a"`. -/
theorem C1_buffer_identity_amended_witness :
    ((renderBuffer idItemSeq "" true).map RenderedItem.sourceItem = idItemSeq ++ idItemSeq) ∧
    itemKey ({} : SliderItem) 0 0 ≠ itemKey ({} : SliderItem) 0 1 ∧
    itemKey { id := some "a", text := some "t" } 0 0 =
      itemKey { id := some "a", text := some "t" } 0 1 :=
  ⟨C1_buffer_identity_amended.1 idItemSeq "" true,
   (C1_buffer_identity_amended.2.2.1 ({} : SliderItem) 0 (by decide)).2.2,
   C1_buffer_identity_amended.2.2.2 { id := some "a", text := some "t" } 0 (by decide)⟩

/-- C2, as stated, is false on the code: validation lives in a
`useEffect`, which runs only after the render output for the sequence
has been committed.  For the concrete sequence `[{}]` (one item with
neither logo nor text) the mount trace throws, but its first event is
the committed render of the doubled buffer, so the rejection does not
precede every rendering side effect. -/
theorem C2_counterexample :
    invalidItems [({} : SliderItem)] ≠ [] ∧
    ¬ rejectsBeforeRender (mountTrace [({} : SliderItem)] "" false) := by
  constructor
  · decide
  · decide

/-- C2 (amended): for every sequence containing an item with neither a
(truthy) logo nor text, the component does raise the descriptive
configuration fault (after logging the offending items) — never a
silent skip — but the fault is raised by the validation effect, which
runs after the sequence's render output has been committed: the mount
trace is exactly [render, consoleError, throw], with the render event
strictly before the throw. -/
theorem C2_validation_amended :
    ∀ (items : List SliderItem) (icn : String) (sl : Bool),
      (invalidItems items).length > 0 →
      mountTrace items icn sl =
        [.render (renderBuffer items icn sl),
         .consoleError (invalidItems items).length,
         .throwError validationMsg] ∧
      (mountTrace items icn sl).any Event.isThrow = true ∧
      (mountTrace items icn sl).findIdx Event.isRender <
        (mountTrace items icn sl).findIdx Event.isThrow := by
  intro items icn sl h
  have htr : mountTrace items icn sl =
      [.render (renderBuffer items icn sl),
       .consoleError (invalidItems items).length,
       .throwError validationMsg] := by
    simp [mountTrace, validateEffect, h]
  refine ⟨htr, ?_, ?_⟩
  · rw [htr]; simp [Event.isThrow]
  · rw [htr]
    simp [List.findIdx_cons, Event.isRender, Event.isThrow]

/-- Witness for C2 (amended) at the concrete invalid sequence `[{}]`. -/
theorem C2_validation_amended_witness :
    mountTrace [({} : SliderItem)] "" false =
      [.render (renderBuffer [({} : SliderItem)] "" false),
       .consoleError (invalidItems [({} : SliderItem)]).length,
       .throwError validationMsg] ∧
    (mountTrace [({} : SliderItem)] "" false).any Event.isThrow = true ∧
    (mountTrace [({} : SliderItem)] "" false).findIdx Event.isRender <
      (mountTrace [({} : SliderItem)] "" false).findIdx Event.isThrow :=
  C2_validation_amended [({} : SliderItem)] "" false (by decide)

theorem jsRound_intCast (d : ℤ) : (JsNum.fin (d : ℚ)).round = .fin (d : ℚ) := by
  simp only [JsNum.round]
  have h : ⌊(d : ℚ) + 1/2⌋ = d + ⌊(1/2 : ℚ)⌋ := Int.floor_int_add d (1/2)
  have h2 : ⌊(1/2 : ℚ)⌋ = 0 := by norm_num
  rw [h, h2, add_zero]

/-- C3: the published `--scroll-duration` equals
`cycleDistance / baseWidth * duration * speed`; for a fixed distance it
is exactly linear in `duration` and in `speed` (doubling either doubles
it); and for distance 1200, baseWidth 5000, duration 30, speed 1 the
published duration is 7.2 seconds. -/
theorem C3_duration_formula :
    (∀ (d : ℤ) (b dur sp : ℚ), 0 < d → b ≠ 0 →
      publishStep (.fin (d : ℚ)) (.fin b) (.fin dur) (.fin sp) =
        some ⟨.fin (d : ℚ), .fin ((d : ℚ) / b * dur * sp)⟩) ∧
    (∀ (d : ℤ) (b dur sp : ℚ), 0 < d → b ≠ 0 →
      publishStep (.fin (d : ℚ)) (.fin b) (.fin (2 * dur)) (.fin sp) =
        some ⟨.fin (d : ℚ), .fin (2 * ((d : ℚ) / b * dur * sp))⟩ ∧
      publishStep (.fin (d : ℚ)) (.fin b) (.fin dur) (.fin (2 * sp)) =
        some ⟨.fin (d : ℚ), .fin (2 * ((d : ℚ) / b * dur * sp))⟩) ∧
    publishStep (.fin 1200) (.fin 5000) (.fin 30) (.fin 1) =
      some ⟨.fin 1200, .fin (36/5)⟩ := by
  have base : ∀ (d : ℤ) (b dur sp : ℚ), 0 < d → b ≠ 0 →
      publishStep (.fin (d : ℚ)) (.fin b) (.fin dur) (.fin sp) =
        some ⟨.fin (d : ℚ), .fin ((d : ℚ) / b * dur * sp)⟩ := by
    intro d b dur sp hd hb
    have hgt : (JsNum.fin (d : ℚ)).gt (.fin 0) = true := by
      simp [JsNum.gt, JsNum.lt]
      exact_mod_cast hd
    simp only [publishStep, hgt, if_true, jsRound_intCast, JsNum.div, JsNum.mul, hb, if_false]
  refine ⟨base, ?_, ?_⟩
  · intro d b dur sp hd hb
    refine ⟨?_, ?_⟩
    · have e : (d : ℚ) / b * (2 * dur) * sp = 2 * ((d : ℚ) / b * dur * sp) := by ring
      rw [base d b (2 * dur) sp hd hb, e]
    · have e : (d : ℚ) / b * dur * (2 * sp) = 2 * ((d : ℚ) / b * dur * sp) := by ring
      rw [base d b dur (2 * sp) hd hb, e]
  · have h := base 1200 5000 30 1 (by norm_num) (by norm_num)
    have e1 : ((1200 : ℤ) : ℚ) = (1200 : ℚ) := by norm_num
    rw [e1] at h
    have e2 : (1200 : ℚ) / 5000 * 30 * 1 = 36 / 5 := by norm_num
    rw [e2] at h
    exact h

/-- Witness for C3 at the spec's scenario numbers. -/
theorem C3_duration_formula_witness :
    publishStep (.fin ((1200 : ℤ) : ℚ)) (.fin 5000) (.fin 30) (.fin 1) =
      some ⟨.fin ((1200 : ℤ) : ℚ), .fin (((1200 : ℤ) : ℚ) / 5000 * 30 * 1)⟩ :=
  C3_duration_formula.1 1200 5000 30 1 (by norm_num) (by norm_num)

/-- C4: with a non-empty attached track, parameters are published iff
the distance left by the fallback tiers is strictly positive; what is
published is always the pair (rounded distance, duration derived from
that same rounded distance) — never one without the other; when the
distance is not positive (or the track is empty) nothing is published,
so no animation is started and no error event exists in this path at
all. -/
theorem C4_publish_iff_positive :
    (∀ (snap : Snapshot) (n : ℕ) (gap : GapProp) (b dur sp : JsNum),
      snap.children ≠ [] →
      ((calculateAndSetWidth snap n gap b dur sp).isSome = true ↔
        (finalWidth snap n gap).gt (.fin 0) = true)) ∧
    (∀ (snap : Snapshot) (n : ℕ) (gap : GapProp) (b dur sp : JsNum),
      snap.children = [] → calculateAndSetWidth snap n gap b dur sp = none) ∧
    (∀ (snap : Snapshot) (n : ℕ) (gap : GapProp) (b dur sp : JsNum) (p : PublishedParams),
      calculateAndSetWidth snap n gap b dur sp = some p →
      p.totalWidth = (finalWidth snap n gap).round ∧
      p.scrollDuration = (((finalWidth snap n gap).round.div b).mul dur).mul sp) ∧
    (∀ (snap : Snapshot) (n : ℕ) (gap : GapProp) (b dur sp : JsNum),
      (finalWidth snap n gap).gt (.fin 0) = false →
      calculateAndSetWidth snap n gap b dur sp = none) := by
  refine ⟨?_, ?_, ?_, ?_⟩
  · intro snap n gap b dur sp h
    have hlen : ¬ snap.children.length = 0 := by
      simpa [List.length_eq_zero] using h
    simp only [calculateAndSetWidth, hlen, if_false, publishStep]
    by_cases hp : (finalWidth snap n gap).gt (.fin 0) = true
    · simp [hp]
    · simp [hp]
  · intro snap n gap b dur sp h
    simp [calculateAndSetWidth, h]
  · intro snap n gap b dur sp p h
    by_cases hlen : snap.children.length = 0
    · simp [calculateAndSetWidth, hlen] at h
    · simp only [calculateAndSetWidth, hlen, if_false, publishStep] at h
      by_cases hp : (finalWidth snap n gap).gt (.fin 0) = true
      · simp only [hp, if_true, Option.some_inj] at h
        rw [← h]
        exact ⟨rfl, rfl⟩
      · simp [hp] at h
  · intro snap n gap b dur sp h
    by_cases hlen : snap.children.length = 0
    · simp [calculateAndSetWidth, hlen]
    · simp [calculateAndSetWidth, hlen, publishStep, h]

/-- A concrete two-child snapshot: one item per copy, items at
offsets 0 and 600. -/
def snapEx : Snapshot := ⟨[⟨.fin 0, .fin 500⟩, ⟨.fin 600, .fin 500⟩], ""⟩

/-- A concrete snapshot all of whose tiers yield 0. -/
def snapZero : Snapshot := ⟨[⟨.fin 0, .fin 0⟩], ""⟩

/-- A snapshot whose primary tier yields 20px (suspiciously small). -/
def snapSmall : Snapshot := ⟨[⟨.fin 0, .fin 10⟩, ⟨.fin 20, .fin 10⟩], ""⟩

theorem snapEx_preTier : preTierWidth snapEx 1 (.num (.fin 48)) = .fin 600 := by
  norm_num [preTierWidth, snapEx, JsNum.sub]

theorem snapEx_final : finalWidth snapEx 1 (.num (.fin 48)) = .fin 600 := by
  unfold finalWidth
  rw [snapEx_preTier]
  decide

theorem snapSmall_preTier : preTierWidth snapSmall 1 (.num (.fin 24)) = .fin 20 := by
  norm_num [preTierWidth, snapSmall, JsNum.sub]

theorem snapZero_final : finalWidth snapZero 1 (.num (.fin 0)) = .fin 0 := by
  norm_num [finalWidth, preTierWidth, tertiaryWidth, needsFallbackWidth, snapZero,
    effectiveGapPx, JsNum.add, JsNum.sub, JsNum.mul, JsNum.strictEq, JsNum.truthy, JsNum.lt]

/-- Witness for C4 at concrete snapshots. -/
theorem C4_publish_iff_positive_witness :
    (calculateAndSetWidth snapEx 1 (.num (.fin 48)) (.fin 5000) (.fin 30) (.fin 1)).isSome = true ∧
    calculateAndSetWidth ⟨[], ""⟩ 1 (.num (.fin 48)) (.fin 5000) (.fin 30) (.fin 1) = none ∧
    (⟨(finalWidth snapEx 1 (.num (.fin 48))).round,
       (((finalWidth snapEx 1 (.num (.fin 48))).round.div (.fin 5000)).mul (.fin 30)).mul
         (.fin 1)⟩ : PublishedParams).totalWidth = (finalWidth snapEx 1 (.num (.fin 48))).round ∧
    calculateAndSetWidth snapZero 1 (.num (.fin 0)) (.fin 5000) (.fin 30) (.fin 1) = none := by
  have hgt : (finalWidth snapEx 1 (.num (.fin 48))).gt (.fin 0) = true := by
    rw [snapEx_final]
    decide
  have hp : calculateAndSetWidth snapEx 1 (.num (.fin 48)) (.fin 5000) (.fin 30) (.fin 1) =
      some ⟨(finalWidth snapEx 1 (.num (.fin 48))).round,
        (((finalWidth snapEx 1 (.num (.fin 48))).round.div (.fin 5000)).mul (.fin 30)).mul
          (.fin 1)⟩ := by
    simp only [calculateAndSetWidth]
    rw [if_neg (by decide)]
    simp only [publishStep, hgt, if_true]
  refine ⟨(C4_publish_iff_positive.1 snapEx 1 (.num (.fin 48)) (.fin 5000) (.fin 30) (.fin 1)
      (by decide)).mpr hgt,
    C4_publish_iff_positive.2.1 ⟨[], ""⟩ 1 (.num (.fin 48)) (.fin 5000) (.fin 30) (.fin 1) rfl,
    (C4_publish_iff_positive.2.2.1 snapEx 1 (.num (.fin 48)) (.fin 5000) (.fin 30) (.fin 1) _ hp).1,
    C4_publish_iff_positive.2.2.2 snapZero 1 (.num (.fin 0)) (.fin 5000) (.fin 30) (.fin 1)
      (by rw [snapZero_final]; decide)⟩

/-- C5, as stated, is false: the trigger of the final fallback is
`w === 0 || !w || w < 100`, and `+Infinity` satisfies none of the three
(it is truthy, not strictly equal to 0, and not below 100), so a
positively infinite intermediate value does not trigger the tertiary
tier even though it is non-finite. -/
theorem C5_counterexample :
    ¬ (∀ w : JsNum,
        (w = .fin 0 ∨ w.isFinite = false ∨ w.lt (.fin 100) = true) →
          needsFallbackWidth w = true) := by
  intro h
  exact absurd (h .posInf (Or.inr (Or.inl rfl))) (by decide)

/-- C5 (amended): the tertiary fallback runs exactly when the value
left by the earlier tiers is zero, NaN, −∞, or a finite value below the
100-pixel threshold; +∞ does not trigger it.  In the pipeline, the
final distance is the tertiary sum exactly when this trigger fires, and
the earlier tiers' value otherwise. -/
theorem C5_fallback_trigger_amended :
    (∀ w : JsNum, needsFallbackWidth w = true ↔
      (w = .nan ∨ w = .negInf ∨ ∃ q : ℚ, w = .fin q ∧ q < 100)) ∧
    needsFallbackWidth .posInf = false ∧
    (∀ (snap : Snapshot) (n : ℕ) (gap : GapProp),
      needsFallbackWidth (preTierWidth snap n gap) = true →
        finalWidth snap n gap = tertiaryWidth snap n gap) ∧
    (∀ (snap : Snapshot) (n : ℕ) (gap : GapProp),
      needsFallbackWidth (preTierWidth snap n gap) = false →
        finalWidth snap n gap = preTierWidth snap n gap) := by
  refine ⟨?_, by decide, ?_, ?_⟩
  · intro w
    cases w with
    | nan => simp [needsFallbackWidth, JsNum.strictEq, JsNum.truthy, JsNum.lt]
    | posInf =>
      simp [needsFallbackWidth, JsNum.strictEq, JsNum.truthy, JsNum.lt]
    | negInf =>
      simp [needsFallbackWidth, JsNum.strictEq, JsNum.truthy, JsNum.lt]
    | fin q =>
      simp only [needsFallbackWidth, JsNum.strictEq, JsNum.truthy, JsNum.lt]
      constructor
      · intro h
        refine Or.inr (Or.inr ⟨q, rfl, ?_⟩)
        rcases Bool.or_eq_true_iff.mp h with h | h
        · rcases Bool.or_eq_true_iff.mp h with h | h
          · have : q = 0 := by simpa using h
            simp [this]
          · have : q = 0 := by simpa using h
            simp [this]
        · simpa using h
      · rintro (h | h | ⟨q', hq', hlt⟩)
        · exact absurd h (by simp)
        · exact absurd h (by simp)
        · cases hq'
          simp [hlt]
  · intro snap n gap h
    simp [finalWidth, h]
  · intro snap n gap h
    simp [finalWidth, h]

/-- Witness for C5 (amended): a 20px primary measurement triggers the
tertiary tier; a 600px one does not. -/
theorem C5_fallback_trigger_amended_witness :
    (needsFallbackWidth (.fin 20) = true ↔
      ((JsNum.fin 20) = .nan ∨ (JsNum.fin 20) = .negInf ∨
        ∃ q : ℚ, (JsNum.fin 20) = .fin q ∧ q < 100)) ∧
    finalWidth snapSmall 1 (.num (.fin 24)) = tertiaryWidth snapSmall 1 (.num (.fin 24)) ∧
    finalWidth snapEx 1 (.num (.fin 48)) = preTierWidth snapEx 1 (.num (.fin 48)) :=
  ⟨C5_fallback_trigger_amended.1 (.fin 20),
   C5_fallback_trigger_amended.2.2.1 snapSmall 1 (.num (.fin 24))
     (by rw [snapSmall_preTier]; decide),
   C5_fallback_trigger_amended.2.2.2 snapEx 1 (.num (.fin 48))
     (by rw [snapEx_preTier]; decide)⟩

/-- C6, as stated, is false: the zero-children retry of
`setupAnimation` simply schedules itself again on a 50ms timer with no
retry cap, so on the stream where children never appear the poll fires
at every tick — the retries are not finitely many. -/
theorem C6_counterexample :
    ¬ (∀ counts : ℕ → ℕ, ∃ N : ℕ, ∀ n : ℕ, N ≤ n → pollHappens counts n = false) := by
  intro h
  obtain ⟨N, hN⟩ := h (fun _ => 0)
  have hall : ∀ n, pollHappens (fun _ => 0) n = true := by
    intro n
    induction n with
    | zero => rfl
    | succ k ih => simp [pollHappens, ih]
  exact absurd (hall N) (by simp [hN N le_rfl])

/-- C6 (amended): the retry loop is non-blocking (each retry is a fresh
50ms timer callback) and it stops as soon as any poll observes
children — after a poll sees a non-zero child count no later poll
happens — but it is unbounded: on a stream where children never appear,
every poll happens, i.e. the loop retries indefinitely. -/
theorem C6_polling_amended :
    (∀ (counts : ℕ → ℕ) (m : ℕ), counts m ≠ 0 →
      ∀ n : ℕ, m < n → pollHappens counts n = false) ∧
    (∀ n : ℕ, pollHappens (fun _ => 0) n = true) := by
  constructor
  · intro counts m hm n hn
    induction n with
    | zero => omega
    | succ k ih =>
      rcases Nat.lt_succ_iff_lt_or_eq.mp hn with h | h
      · simp [pollHappens, ih h]
      · subst h
        simp [pollHappens, hm]
  · intro n
    induction n with
    | zero => rfl
    | succ k ih => simp [pollHappens, ih]

/-- Witness for C6 (amended): with one child present at the first poll,
the second poll never happens; with no children ever, the sixth poll
still happens. -/
theorem C6_polling_amended_witness :
    pollHappens (fun _ => 1) 1 = false ∧ pollHappens (fun _ => 0) 5 = true :=
  ⟨C6_polling_amended.1 (fun _ => 1) 0 (by simp) 1 (by omega),
   C6_polling_amended.2 5⟩

theorem dedupFirst_nodup (l : List String) : (dedupFirst l).Nodup := by
  induction l with
  | nil => simp [dedupFirst]
  | cons x xs ih =>
    rw [dedupFirst, List.nodup_cons]
    refine ⟨fun hmem => ?_, ih.filter _⟩
    have := List.of_mem_filter hmem
    simp at this

theorem imageUrls_nodup (items : List SliderItem) : (imageUrls items).Nodup :=
  dedupFirst_nodup _

theorem preload_foldl_char (total : ℕ) (events : List LoadEvent) :
    ∀ (c : ℕ) (b : Bool),
      events.foldl (fun st _e => checkAllLoaded total st) (c, b) =
        (c + events.length, b || decide (c < total ∧ total ≤ c + events.length)) := by
  induction events with
  | nil =>
    intro c b
    simp
  | cons e es ih =>
    intro c b
    rw [List.foldl_cons]
    have hstep : checkAllLoaded total (c, b) = (c + 1, b || decide (c + 1 = total)) := rfl
    rw [hstep, ih (c + 1) (b || decide (c + 1 = total))]
    have hlen : c + 1 + es.length = c + (e :: es).length := by
      simp only [List.length_cons]
      omega
    have hb : ((b || decide (c + 1 = total)) ||
          decide (c + 1 < total ∧ total ≤ c + 1 + es.length)) =
        (b || decide (c < total ∧ total ≤ c + (e :: es).length)) := by
      rw [Bool.or_assoc, ← Bool.decide_or]
      have hiff : ((c + 1 = total) ∨ (c + 1 < total ∧ total ≤ c + 1 + es.length)) ↔
          (c < total ∧ total ≤ c + (e :: es).length) := by
        simp only [List.length_cons]
        omega
      rw [decide_eq_decide.mpr hiff]
    exact Prod.ext hlen hb

theorem imagesLoadedAfter_char (items : List SliderItem) (events : List LoadEvent) :
    imagesLoadedAfter items events =
      decide ((imageUrls items).length ≤ events.length) := by
  simp only [imagesLoadedAfter, preloadRun]
  rw [preload_foldl_char]
  rcases Nat.eq_zero_or_pos (imageUrls items).length with h | h
  · simp [h]
  · have h0 : decide ((imageUrls items).length = 0) = false :=
      decide_eq_false_iff_not.mpr (by omega)
    simp only [h0, Bool.false_or]
    exact decide_eq_decide.mpr (by omega)

/-- C7: per sequence generation, the `imagesLoaded` flag is monotone —
once true it stays true no matter what completion events follow (hence
it transitions false→true at most once and never reverts); it is true
immediately when the set of distinct image URLs is empty; and, for a
trace in which each distinct URL completes at most once and only known
URLs complete, the flag is true exactly when every distinct URL of the
sequence has completed — an `onerror` completion counting exactly like
an `onload` one. -/
theorem C7_readiness_monotone :
    (∀ (items : List SliderItem) (evs more : List LoadEvent),
      imagesLoadedAfter items evs = true →
      imagesLoadedAfter items (evs ++ more) = true) ∧
    (∀ items : List SliderItem, imageUrls items = [] →
      imagesLoadedAfter items [] = true) ∧
    (∀ (items : List SliderItem) (evs : List LoadEvent),
      (evs.map LoadEvent.url).Nodup →
      (∀ e ∈ evs, e.url ∈ imageUrls items) →
      (imagesLoadedAfter items evs = true ↔
        ∀ u ∈ imageUrls items, u ∈ evs.map LoadEvent.url)) ∧
    (∀ (items : List SliderItem) (evs : List LoadEvent) (u : String),
      imagesLoadedAfter items (evs ++ [.failure u]) =
      imagesLoadedAfter items (evs ++ [.success u])) := by
  refine ⟨?_, ?_, ?_, ?_⟩
  · intro items evs more h
    rw [imagesLoadedAfter_char] at h ⊢
    simp only [decide_eq_true_eq, List.length_append] at h ⊢
    omega
  · intro items h
    rw [imagesLoadedAfter_char]
    simp [h]
  · intro items evs hnd hsub
    rw [imagesLoadedAfter_char]
    simp only [decide_eq_true_eq]
    have hurlnd : (imageUrls items).Nodup := imageUrls_nodup items
    have hmlen : (evs.map LoadEvent.url).length = evs.length := List.length_map _ _
    constructor
    · intro hle u hu
      have hmsub : (evs.map LoadEvent.url) ⊆ imageUrls items := by
        intro a ha
        obtain ⟨e, he, rfl⟩ := List.mem_map.mp ha
        exact hsub e he
      have hfs : (evs.map LoadEvent.url).toFinset ⊆ (imageUrls items).toFinset := by
        intro a ha
        exact List.mem_toFinset.mpr (hmsub (List.mem_toFinset.mp ha))
      have hcard : (imageUrls items).toFinset.card ≤ (evs.map LoadEvent.url).toFinset.card := by
        rw [List.toFinset_card_of_nodup hnd, List.toFinset_card_of_nodup hurlnd, hmlen]
        exact hle
      have heq : (evs.map LoadEvent.url).toFinset = (imageUrls items).toFinset :=
        Finset.eq_of_subset_of_card_le hfs hcard
      have : u ∈ (imageUrls items).toFinset := List.mem_toFinset.mpr hu
      rw [← heq] at this
      exact List.mem_toFinset.mp this
    · intro hsup
      have hfs : (imageUrls items).toFinset ⊆ (evs.map LoadEvent.url).toFinset := by
        intro a ha
        exact List.mem_toFinset.mpr (hsup a (List.mem_toFinset.mp ha))
      have h1 : (imageUrls items).length = (imageUrls items).toFinset.card :=
        (List.toFinset_card_of_nodup hurlnd).symm
      have h2 : (evs.map LoadEvent.url).toFinset.card ≤ evs.length := by
        rw [← hmlen]
        exact List.toFinset_card_le _
      calc (imageUrls items).length = (imageUrls items).toFinset.card := h1
        _ ≤ (evs.map LoadEvent.url).toFinset.card := Finset.card_le_card hfs
        _ ≤ evs.length := h2
  · intro items evs u
    rw [imagesLoadedAfter_char, imagesLoadedAfter_char]
    simp [List.length_append]

/-- A sequence with one (duplicated) distinct image URL. -/
def logoItems : List SliderItem := [{ logo := some "u" }, { logo := some "u", text := some "t" }]

/-- Witness for C7 at a concrete sequence and completion trace: with the
single distinct URL `"u"` completed (by `onerror`), the flag is true; it
stays true after further events; and it is true immediately for a
sequence with no image URLs. -/
theorem C7_readiness_monotone_witness :
    imagesLoadedAfter logoItems [.failure "u"] = true ∧
    imagesLoadedAfter logoItems ([.failure "u"] ++ [.success "u"]) = true ∧
    imagesLoadedAfter ([{ text := some "B" }] : List SliderItem) [] = true := by
  have h1 : imagesLoadedAfter logoItems [.failure "u"] = true :=
    (C7_readiness_monotone.2.2.1 logoItems [.failure "u"] (by decide) (by decide)).mpr
      (by decide)
  exact ⟨h1, C7_readiness_monotone.1 logoItems [.failure "u"] [.success "u"] h1,
    C7_readiness_monotone.2.1 [{ text := some "B" }] (by decide)⟩

/-- C8: the effective gap used by the secondary and tertiary tiers is
determined by the ordered chain: the parsed live computed gap string
when that string is non-empty (truthy), else the caller's `gap` when it
is a number, else the constant 48; in particular with no live computed
gap and a numeric gap of 24 the effective gap is 24 — and that is the
gap the tertiary sum actually uses. -/
theorem C8_gap_fallback_chain :
    (∀ (gv : String) (gap : GapProp), gv ≠ "" →
      effectiveGapPx gv gap = parseFloatJs gv) ∧
    (∀ x : JsNum, effectiveGapPx "" (.num x) = x) ∧
    (∀ s : String, effectiveGapPx "" (.str s) = .fin 48) ∧
    effectiveGapPx "" (.num (.fin 24)) = .fin 24 ∧
    (∀ (snap : Snapshot) (n : ℕ), snap.computedGap = "" →
      tertiaryWidth snap n (.num (.fin 24)) =
        JsNum.add
          ((snap.children.take n).foldl (fun acc c => JsNum.add acc c.offsetWidth) (.fin 0))
          (JsNum.mul (.fin 24) (.fin ((n : ℚ) - 1)))) := by
  refine ⟨?_, ?_, ?_, ?_, ?_⟩
  · intro gv gap h
    simp [effectiveGapPx, h]
  · intro x
    simp [effectiveGapPx]
  · intro s
    simp [effectiveGapPx]
  · simp [effectiveGapPx]
  · intro snap n h
    simp [tertiaryWidth, effectiveGapPx, h]

/-- Witness for C8: with live computed gap "48px" the parsed string
wins; with no computed gap the tertiary sum uses the numeric 24. -/
theorem C8_gap_fallback_chain_witness :
    effectiveGapPx "48px" (.num (.fin 24)) = parseFloatJs "48px" ∧
    tertiaryWidth snapSmall 1 (.num (.fin 24)) =
      JsNum.add
        ((snapSmall.children.take 1).foldl (fun acc c => JsNum.add acc c.offsetWidth) (.fin 0))
        (JsNum.mul (.fin 24) (.fin (((1 : ℕ) : ℚ) - 1))) :=
  ⟨C8_gap_fallback_chain.1 "48px" (.num (.fin 24)) (by decide),
   C8_gap_fallback_chain.2.2.2.2 snapSmall 1 rfl⟩

/-- C9, as stated, is false: with lazy gating enabled and no `window`,
the effect returns before setting any flag, so the gate does not reach
the Active (`shouldLoad`) state — it short-circuits to Active only when
lazy gating is disabled. -/
theorem C9_counterexample :
    ¬ (∀ (lazyLoad intersects : Bool),
        (lazyLoadEffect lazyLoad false intersects).shouldLoad = true ∧
        (lazyLoadEffect lazyLoad false intersects).observerCreated = false) := by
  intro h
  exact absurd (h true false).1 (by decide)

/-- C9 (amended): in a host with no `window`, no observer is ever
created, for any configuration; the gate reaches Active there exactly
when lazy gating is disabled — with `lazyLoad = true` both `isVisible`
and `shouldLoad` remain false (the component stays dormant rather than
short-circuiting to Active). -/
theorem C9_ssr_gate_amended :
    (∀ lz i : Bool, (lazyLoadEffect lz false i).observerCreated = false) ∧
    (∀ i : Bool, lazyLoadEffect false false i = ⟨true, true, false⟩) ∧
    (∀ i : Bool, (lazyLoadEffect true false i).shouldLoad = false ∧
      (lazyLoadEffect true false i).isVisible = false) := by
  refine ⟨?_, ?_, ?_⟩ <;> decide

instance : Inhabited PublishedParams := ⟨⟨.nan, .nan⟩⟩

theorem jsMul_fin_not_finite (x : JsNum) (q : ℚ) (hx : x.isFinite = false) :
    (x.mul (.fin q)).isFinite = false := by
  cases x with
  | nan => rfl
  | posInf =>
    simp only [JsNum.mul]
    split_ifs <;> rfl
  | negInf =>
    simp only [JsNum.mul]
    split_ifs <;> rfl
  | fin a => simp [JsNum.isFinite] at hx

/-- C10: the duration computation divides by the caller's `baseWidth`
with no guard: for any positive measured distance and `baseWidth = 0`,
the positivity check (which inspects only the distance) still passes,
so the rounded distance is published together with a `--scroll-duration`
that is not a finite number. -/
theorem C10_zero_baseWidth_publishes_nonfinite :
    ∀ (w dur sp : ℚ), 0 < w →
      (publishStep (.fin w) (.fin 0) (.fin dur) (.fin sp)).isSome = true ∧
      ((publishStep (.fin w) (.fin 0) (.fin dur) (.fin sp)).getD default).totalWidth =
        (JsNum.fin w).round ∧
      ((publishStep (.fin w) (.fin 0) (.fin dur) (.fin sp)).getD
          default).scrollDuration.isFinite = false := by
  intro w dur sp hw
  have hgt : (JsNum.fin w).gt (.fin 0) = true := by
    simp [JsNum.gt, JsNum.lt, hw]
  have hpub : publishStep (.fin w) (.fin 0) (.fin dur) (.fin sp) =
      some ⟨(JsNum.fin w).round,
        (((JsNum.fin w).round.div (.fin 0)).mul (.fin dur)).mul (.fin sp)⟩ := by
    simp only [publishStep, hgt, if_true]
  rw [hpub]
  refine ⟨rfl, rfl, ?_⟩
  apply jsMul_fin_not_finite
  apply jsMul_fin_not_finite
  simp only [JsNum.round, JsNum.div, if_pos rfl]
  split_ifs <;> rfl

/-- Witness for C10 at distance 1200, duration 30, speed 1. -/
theorem C10_zero_baseWidth_publishes_nonfinite_witness :
    (publishStep (.fin 1200) (.fin 0) (.fin 30) (.fin 1)).isSome = true ∧
    ((publishStep (.fin 1200) (.fin 0) (.fin 30) (.fin 1)).getD default).totalWidth =
      (JsNum.fin 1200).round ∧
    ((publishStep (.fin 1200) (.fin 0) (.fin 30) (.fin 1)).getD
        default).scrollDuration.isFinite = false :=
  C10_zero_baseWidth_publishes_nonfinite 1200 30 1 (by norm_num)
